import Mathlib

/-!
# Verification of `simple_financial_planner.py`

A shallow embedding in Lean 4 of the financial-planner agent:

* the two pure calculators `calculate_sip_projection` and
  `plan_retirement_goal` (Python dicts become association lists from
  field names to values; Python float arithmetic is idealised as exact
  rational arithmetic; Python's `round(x, 2)` becomes round-half-to-even
  at two decimal places);
* the tool registry `TOOL_MAPPING` and the tool catalog `TOOLS`;
* the dispatcher `invoke_tools_from_response` over a model response,
  where a JSON argument payload is modelled by the possible outcomes of
  `json.loads` followed by keyword application `tool(**args)`;
* the orchestrator `run_agent_turn`, with the remote backend modelled as
  the finite stream of responses it returns to successive requests.
-/

/-! ## Rounding

Python's built-in `round` rounds half to even ("banker's rounding").
`bankRound x` models `round(x)` and `round2 x` models `round(x, 2)`,
idealised over `ℚ`. -/

/-- Round to the nearest integer, ties to the even neighbour. -/
def bankRound (x : ℚ) : ℤ :=
  if x < ⌊x⌋ + 1/2 then ⌊x⌋
  else if (⌊x⌋ : ℚ) + 1/2 < x then ⌊x⌋ + 1
  else if ⌊x⌋ % 2 = 0 then ⌊x⌋ else ⌊x⌋ + 1

/-- Python's `round(x, 2)`: round to two decimal places, ties to even. -/
def round2 (x : ℚ) : ℚ := (bankRound (x * 100) : ℚ) / 100

/-- A rational is a two-decimal value: an integer number of hundredths. -/
def IsTwoDecimal (q : ℚ) : Prop := ∃ z : ℤ, q = (z : ℚ) / 100

/-! ## Calculator results

A Python dict returned by a calculator becomes an association list from
field names to values, in insertion order. -/

/-- A value stored in a calculator result dict. -/
inductive FieldVal where
  | num (q : ℚ)
  | int (z : ℤ)
  | str (s : String)
deriving DecidableEq

/-- A calculator result: the Python dict as an ordered association list. -/
abbrev CalcResult := List (String × FieldVal)

/-- Look a field up by name (first occurrence). -/
def getField : CalcResult → String → Option FieldVal
  | [], _ => none
  | (k, v) :: rest, key => if k = key then some v else getField rest key

/-! ## Calculators (`simple_financial_planner.py`, lines 14–111) -/

/-- `calculate_sip_projection(monthly_investment, expected_annual_return_pct,
years)`: SIP projection with fixed return and monthly compounding. -/
def calculate_sip_projection (monthly_investment expected_annual_return_pct : ℚ)
    (years : ℤ) : CalcResult :=
  if years ≤ 0 then
    [("error", .str "Years must be > 0")]
  else
    let r : ℚ := (expected_annual_return_pct / 100) / 12  -- monthly rate
    let n : ℤ := years * 12                               -- months
    let future_value : ℚ :=
      if r = 0 then monthly_investment * n
      else monthly_investment * (((1 + r) ^ n.toNat - 1) / r)
    let total_invested : ℚ := monthly_investment * n
    let gain : ℚ := future_value - total_invested
    [("monthly_investment", .num monthly_investment),
     ("expected_annual_return_pct", .num expected_annual_return_pct),
     ("years", .int years),
     ("total_invested", .num (round2 total_invested)),
     ("projected_value", .num (round2 future_value)),
     ("projected_gain", .num (round2 gain))]

/-- `plan_retirement_goal(current_age, retirement_age, monthly_expense_today,
inflation_pct, expected_return_pct_during_accumulation, current_corpus=0.0)`:
inflation for expense growth, 4% rule for corpus sizing, reverse SIP formula
for the required monthly investment.  The Python default argument
`current_corpus=0.0` is passed explicitly by every caller in this file. -/
def plan_retirement_goal (current_age retirement_age : ℤ)
    (monthly_expense_today inflation_pct
     expected_return_pct_during_accumulation current_corpus : ℚ) : CalcResult :=
  let years_to_retirement : ℤ := retirement_age - current_age
  if years_to_retirement ≤ 0 then
    [("error", .str "Retirement age must be greater than current age.")]
  else
    -- Step 1: Inflate expenses to retirement
    let infl : ℚ := inflation_pct / 100
    let target_monthly_at_retirement : ℚ :=
      monthly_expense_today * (1 + infl) ^ years_to_retirement.toNat
    -- Step 2: 4% rule for required corpus
    let annual_exp_at_retirement : ℚ := target_monthly_at_retirement * 12
    let safe_withdrawal_rate : ℚ := 4/100
    let required_corpus : ℚ := annual_exp_at_retirement / safe_withdrawal_rate
    -- Step 3: SIP needed to reach that corpus
    let goal_amount : ℚ := max (required_corpus - current_corpus) 0
    let r : ℚ := (expected_return_pct_during_accumulation / 100) / 12
    let n : ℤ := years_to_retirement * 12
    if n ≤ 0 ∨ r ≤ 0 then
      [("error", .str "Invalid inputs for SIP calculation."),
       ("required_corpus", .num (round2 required_corpus))]
    else
      let denom : ℚ := (1 + r) ^ n.toNat - 1
      if denom = 0 then
        [("error", .str "Mathematical error in SIP calculation."),
         ("required_corpus", .num (round2 required_corpus))]
      else
        let required_monthly_sip : ℚ := goal_amount * r / denom
        [("current_age", .int current_age),
         ("retirement_age", .int retirement_age),
         ("years_to_retirement", .int years_to_retirement),
         ("monthly_expense_today", .num (round2 monthly_expense_today)),
         ("inflation_pct", .num inflation_pct),
         ("expected_return_pct_during_accumulation",
            .num expected_return_pct_during_accumulation),
         ("current_corpus", .num (round2 current_corpus)),
         ("target_monthly_at_retirement",
            .num (round2 target_monthly_at_retirement)),
         ("required_corpus", .num (round2 required_corpus)),
         ("required_monthly_sip", .num (round2 required_monthly_sip))]

/-! ## Tool registry and catalog (`simple_financial_planner.py`, lines 114–201) -/

/-- The two local tools of `TOOL_MAPPING`. -/
inductive Tool where
  | sip_projection
  | retirement_goal
deriving DecidableEq

/-- `TOOL_MAPPING`: map tool name to the local function (`dict.get`:
`none` when the name is absent). -/
def TOOL_MAPPING (tool_name : String) : Option Tool :=
  if tool_name = "calculate_sip_projection" then some .sip_projection
  else if tool_name = "plan_retirement_goal" then some .retirement_goal
  else none

/-- One entry of the tool catalog `TOOLS`.  The JSON parameter schema of the
source is summarised by the tool's name and description; none of the core's
control flow reads the schema. -/
structure ToolSpec where
  name : String
  description : String
deriving DecidableEq

/-- The static tool catalog `TOOLS`. -/
def TOOLS : List ToolSpec :=
  [{ name := "calculate_sip_projection",
     description := "Calculate projected future value of a monthly investment (SIP) given years and expected annual return." },
   { name := "plan_retirement_goal",
     description := "Plan a simplified retirement goal. Use this when the user talks about retirement corpus, age, or long-term financial independence." }]

/-! ## Dispatcher (`simple_financial_planner.py`, lines 205–242)

`item.arguments` is a JSON string in the source.  Its observable fate in
the dispatcher is: it is falsy (`""`, giving `args = {}`), or `json.loads`
raises, or it parses to a keyword dict that either matches a calculator's
signature or makes `tool(**args)` raise `TypeError`.  `ArgsDict` and
`RawArgs` enumerate exactly these outcomes. -/

/-- A parsed JSON argument object, classified against the two calculators'
keyword signatures.  `current_corpus` is optional: the source gives it the
default `0.0`. -/
inductive ArgsDict where
  | sipArgs (monthly_investment expected_annual_return_pct : ℚ) (years : ℤ)
  | retireArgs (current_age retirement_age : ℤ)
      (monthly_expense_today inflation_pct
       expected_return_pct_during_accumulation : ℚ)
      (current_corpus : Option ℚ)
  | mismatched
deriving DecidableEq

/-- The raw `item.arguments` payload, by its observable behaviour. -/
inductive RawArgs where
  | empty
  | malformed (detail : String)
  | parsed (args : ArgsDict)
deriving DecidableEq

/-- `json.loads(item.arguments) if item.arguments else {}`: the empty payload
parses to the empty keyword dict, which matches neither signature. -/
def json_loads : RawArgs → Except String ArgsDict
  | .empty => .ok .mismatched
  | .malformed detail => .error detail
  | .parsed args => .ok args

/-- `tool(**args)`: `none` models a `TypeError` raised because the keyword
dict does not match the tool's signature; `current_corpus` defaults to 0. -/
def applyTool : Tool → ArgsDict → Option CalcResult
  | .sip_projection, .sipArgs mi arp years =>
      some (calculate_sip_projection mi arp years)
  | .retirement_goal, .retireArgs ca ra met infl er corpus =>
      some (plan_retirement_goal ca ra met infl er (corpus.getD 0))
  | _, _ => none

/-- The body of the dispatcher's loop for one `function_call` item: look the
name up in `TOOL_MAPPING`, parse the arguments, run the tool; every failure
becomes an `{error: ...}` payload, never an exception. -/
def dispatch_call (tool_name : String) (raw : RawArgs) : CalcResult :=
  match TOOL_MAPPING tool_name with
  | none =>
      [("error", .str ("No local implementation for tool '" ++ tool_name ++ "'"))]
  | some tool =>
      match json_loads raw with
      | .error detail =>
          [("error", .str ("Exception while running tool '" ++ tool_name ++ "': " ++ detail))]
      | .ok args =>
          match applyTool tool args with
          | none =>
              [("error", .str ("Exception while running tool '" ++ tool_name ++ "': TypeError"))]
          | some tool_result => tool_result

/-- One item of `response.output`: a `function_call` request, or any other
item type (`reasoning`, `message`, ...), which the dispatcher ignores. -/
inductive ResponseItem where
  | function_call (call_id : String) (name : String) (arguments : RawArgs)
  | other (item_type : String)
deriving DecidableEq

/-- Is an output item a tool-invocation request (`item.type == "function_call"`)? -/
def isFunctionCall : ResponseItem → Bool
  | .function_call .. => true
  | .other _ => false

/-- The call identifier of a tool-invocation request, `none` for other items. -/
def requestCallId : ResponseItem → Option String
  | .function_call call_id _ _ => some call_id
  | .other _ => none

/-- A `TurnResponse`: the backend's response handle, with its continuation
identifier and its list of output items. -/
structure TurnResponse where
  id : String
  output : List ResponseItem
deriving DecidableEq

/-- A `function_call_output` item fed back to the model: the echoed call
identifier and the tool's output payload (the source serialises the payload
with `json.dumps`; the serialisation is kept structured here). -/
structure ToolCallResult where
  call_id : String
  output : CalcResult
deriving DecidableEq

/-- `invoke_tools_from_response(response)`: execute every `function_call`
item of `response.output`, in order, and return one `function_call_output`
per request.  Total by construction: no exception escapes. -/
def invoke_tools_from_response (response : TurnResponse) : List ToolCallResult :=
  response.output.filterMap fun item =>
    match item with
    | .function_call call_id tool_name args =>
        some { call_id := call_id, output := dispatch_call tool_name args }
    | .other _ => none

/-! ## Orchestrator (`simple_financial_planner.py`, lines 245–274)

The remote backend (`client.responses.create`) is modelled as the finite
stream of `TurnResponse`s it returns to successive requests; the embedding
records every request the loop issues.  The loop returns `none` when the
stream is exhausted while tool requests are still pending (the source would
keep calling the backend). -/

/-- The model identifier. -/
def MODEL : String := "gpt-5-mini"

/-- The `input` field of a backend request: the user's message on the first
call, the dispatcher's tool outputs on every resubmission. -/
inductive ReqInput where
  | user (text : String)
  | toolOutputs (function_messages : List ToolCallResult)
deriving DecidableEq

/-- One call to `client.responses.create`, as issued by the orchestrator. -/
structure BackendRequest where
  model : String
  input : ReqInput
  tools : List ToolSpec
  previous_response_id : Option String
deriving DecidableEq

/-- The `while True` loop of `run_agent_turn`, holding the current response:
if the dispatcher returns no tool outputs the current response is final;
otherwise resubmit the outputs (with the unchanged catalog `TOOLS` and the
current response's id) and continue with the backend's next response. -/
def agent_loop (response : TurnResponse) (backend : List TurnResponse) :
    Option (TurnResponse × List BackendRequest) :=
  let function_messages := invoke_tools_from_response response
  if function_messages = [] then
    some (response, [])
  else
    match backend with
    | [] => none
    | next :: rest =>
        (agent_loop next rest).map fun p =>
          (p.1,
           { model := MODEL, input := .toolOutputs function_messages,
             tools := TOOLS, previous_response_id := some response.id } :: p.2)

/-- `run_agent_turn(user_input, previous_response_id)`: issue the initial
request carrying the user's message and the catalog, then run the loop.
Returns the final response together with every request issued. -/
def run_agent_turn (user_input : String) (previous_response_id : Option String)
    (backend : List TurnResponse) :
    Option (TurnResponse × List BackendRequest) :=
  match backend with
  | [] => none
  | first :: rest =>
      (agent_loop first rest).map fun p =>
        (p.1,
         { model := MODEL, input := .user user_input,
           tools := TOOLS, previous_response_id := previous_response_id } :: p.2)

/-! ## Properties of the rounding function -/

theorem bankRound_le_add_half (x : ℚ) : (bankRound x : ℚ) ≤ x + 1/2 := by
  have hfl := Int.floor_le x
  have hlt := Int.lt_floor_add_one x
  unfold bankRound
  split_ifs with h1 h2 h3
  · linarith
  · push_cast
    linarith
  · linarith
  · push_cast
    push_neg at h1
    linarith

theorem sub_half_le_bankRound (x : ℚ) : x - 1/2 ≤ (bankRound x : ℚ) := by
  have hfl := Int.floor_le x
  have hlt := Int.lt_floor_add_one x
  unfold bankRound
  split_ifs with h1 h2 h3
  · linarith
  · push_cast
    linarith
  · push_neg at h1 h2
    linarith
  · push_cast
    push_neg at h1 h2
    linarith

theorem bankRound_mono {x y : ℚ} (h : x ≤ y) : bankRound x ≤ bankRound y := by
  by_contra hlt
  push_neg at hlt
  have h1 : (bankRound y : ℚ) + 1 ≤ (bankRound x : ℚ) := by
    exact_mod_cast Int.add_one_le_iff.mpr hlt
  have h2 := bankRound_le_add_half x
  have h3 := sub_half_le_bankRound y
  have hxy : x = y := le_antisymm h (by linarith)
  subst hxy
  exact absurd hlt (lt_irrefl _)

theorem round2_mono {x y : ℚ} (h : x ≤ y) : round2 x ≤ round2 y := by
  unfold round2
  have : bankRound (x * 100) ≤ bankRound (y * 100) :=
    bankRound_mono (by linarith)
  have : ((bankRound (x * 100) : ℤ) : ℚ) ≤ ((bankRound (y * 100) : ℤ) : ℚ) := by
    exact_mod_cast this
  linarith

theorem round2_nonneg {x : ℚ} (h : 0 ≤ x) : 0 ≤ round2 x := by
  unfold round2
  have h1 := sub_half_le_bankRound (x * 100)
  have h2 : (-1 : ℚ) < (bankRound (x * 100) : ℚ) := by linarith
  have h3 : (-1 : ℤ) < bankRound (x * 100) := by exact_mod_cast h2
  have h4 : (0 : ℤ) ≤ bankRound (x * 100) := by omega
  have h5 : (0 : ℚ) ≤ (bankRound (x * 100) : ℚ) := by exact_mod_cast h4
  positivity

theorem round2_zero : round2 0 = 0 := by
  norm_num [round2, bankRound]

theorem round2_two_decimal (x : ℚ) : IsTwoDecimal (round2 x) :=
  ⟨bankRound (x * 100), rfl⟩

/-! ## Claim C9: the years guard of `calculate_sip_projection` -/

/-- C9: for every `monthly_investment` and `expected_annual_return_pct`,
`calculate_sip_projection` called with `years <= 0` returns exactly
`{"error": "Years must be > 0"}`; no exception propagates (the embedding
is total). -/
theorem sip_years_guard (monthly_investment expected_annual_return_pct : ℚ)
    (years : ℤ) (h : years ≤ 0) :
    calculate_sip_projection monthly_investment expected_annual_return_pct years
      = [("error", .str "Years must be > 0")] := by
  simp [calculate_sip_projection, h]

theorem sip_years_guard_witness :
    (0 : ℤ) ≤ 0 ∧ calculate_sip_projection 5 7 0
      = [("error", .str "Years must be > 0")] :=
  ⟨le_refl 0, sip_years_guard 5 7 0 (le_refl 0)⟩

/-! ## Claim C6: the invalid-inputs branch of `plan_retirement_goal` -/

/-- C6: whenever `retirement_age > current_age` and the accumulation return
percentage is `<= 0` (so the monthly rate `r <= 0`), `plan_retirement_goal`
returns the error object `"Invalid inputs for SIP calculation."` carrying the
already-computed `required_corpus` rounded to 2 decimals. -/
theorem plan_invalid_inputs_error (current_age retirement_age : ℤ)
    (monthly_expense_today inflation_pct er current_corpus : ℚ)
    (hage : current_age < retirement_age) (her : er ≤ 0) :
    plan_retirement_goal current_age retirement_age monthly_expense_today
        inflation_pct er current_corpus
      = [("error", .str "Invalid inputs for SIP calculation."),
         ("required_corpus", .num (round2 (monthly_expense_today
            * (1 + inflation_pct / 100) ^ (retirement_age - current_age).toNat
            * 12 / (4/100))))] := by
  have h1 : ¬(retirement_age - current_age ≤ 0) := by omega
  have h2 : er / 100 / 12 ≤ 0 := by
    have he : er / 100 / 12 = er * (1/1200) := by ring
    rw [he]
    linarith
  simp [plan_retirement_goal, h1, h2]

theorem plan_invalid_inputs_error_witness :
    (30 : ℤ) < 60 ∧ (0 : ℚ) ≤ 0 ∧
      plan_retirement_goal 30 60 50000 6 0 0
        = [("error", .str "Invalid inputs for SIP calculation."),
           ("required_corpus", .num (8615236759/100))] := by
  refine ⟨by norm_num, le_refl 0, ?_⟩
  have h := plan_invalid_inputs_error 30 60 50000 6 0 0 (by norm_num) (le_refl 0)
  rw [h]
  simp [round2, bankRound]
  norm_num

/-! ## Claim C3: the SIP projection formula and the worked example

The general ordinary-annuity formula matches the source, but the claimed
concrete values for `calculate_sip_projection(1000, 12, 10)` do not: the
code computes `1000 * ((1.01^120 - 1) / 0.01) = 230038.69...` (the claimed
`232339.07` is the annuity-due variant, `ordinary * 1.01`). -/

/-- C3 counterexample: at the claim's own input `(1000, 12, 10)` the
projected value is not `232339.07`. -/
theorem sip_example_value_counterexample :
    getField (calculate_sip_projection 1000 12 10) "projected_value"
      ≠ some (.num (23233907/100)) := by
  have h : getField (calculate_sip_projection 1000 12 10) "projected_value"
      = some (.num (23003869/100)) := by
    simp [calculate_sip_projection, getField, round2, bankRound]
    norm_num
  rw [h]
  simp
  norm_num

/-- C3 (amended): for `years >= 1` the success result carries, rounded to
two decimals, `total_invested = monthly_investment * n`, the projected value
`monthly_investment * n` when `r = 0` and the ordinary-annuity value
otherwise, and the gain as their difference; at `(1000, 12, 10)` this gives
`total_invested = 120000.00`, `projected_value = 230038.69` and
`projected_gain = 110038.69`. -/
theorem calculate_sip_projection_formula (mi arp : ℚ) (years : ℤ)
    (h : 1 ≤ years) :
    calculate_sip_projection mi arp years
      = [("monthly_investment", .num mi),
         ("expected_annual_return_pct", .num arp),
         ("years", .int years),
         ("total_invested", .num (round2 (mi * (years * 12 : ℤ)))),
         ("projected_value", .num (round2
            (if (arp / 100) / 12 = 0 then mi * (years * 12 : ℤ)
             else mi * (((1 + (arp / 100) / 12) ^ (years * 12 : ℤ).toNat - 1)
                          / ((arp / 100) / 12))))),
         ("projected_gain", .num (round2
            ((if (arp / 100) / 12 = 0 then mi * (years * 12 : ℤ)
              else mi * (((1 + (arp / 100) / 12) ^ (years * 12 : ℤ).toNat - 1)
                           / ((arp / 100) / 12)))
             - mi * (years * 12 : ℤ))))] ∧
    calculate_sip_projection 1000 12 10
      = [("monthly_investment", .num 1000),
         ("expected_annual_return_pct", .num 12),
         ("years", .int 10),
         ("total_invested", .num 120000),
         ("projected_value", .num (23003869/100)),
         ("projected_gain", .num (11003869/100))] := by
  constructor
  · have hy : ¬(years ≤ 0) := by omega
    simp [calculate_sip_projection, hy]
  · simp [calculate_sip_projection, round2, bankRound]
    norm_num

theorem calculate_sip_projection_formula_witness :
    (1 : ℤ) ≤ 10 ∧
    calculate_sip_projection 1000 12 10
      = [("monthly_investment", .num 1000),
         ("expected_annual_return_pct", .num 12),
         ("years", .int 10),
         ("total_invested", .num 120000),
         ("projected_value", .num (23003869/100)),
         ("projected_gain", .num (11003869/100))] :=
  ⟨by decide, (calculate_sip_projection_formula 1000 12 10 (by decide)).2⟩

/-! ## Result shapes of the two calculators (shared case analysis) -/

/-- Every result of `calculate_sip_projection` is the years-guard error dict
or the full success dict, whose three derived fields are `round2` values. -/
theorem sip_cases (mi arp : ℚ) (years : ℤ) :
    calculate_sip_projection mi arp years = [("error", .str "Years must be > 0")] ∨
    ∃ a b c, calculate_sip_projection mi arp years
      = [("monthly_investment", .num mi),
         ("expected_annual_return_pct", .num arp),
         ("years", .int years),
         ("total_invested", .num (round2 a)),
         ("projected_value", .num (round2 b)),
         ("projected_gain", .num (round2 c))] := by
  unfold calculate_sip_projection
  split_ifs with h
  · exact Or.inl rfl
  · exact Or.inr ⟨_, _, _, rfl⟩

/-- Every result of `plan_retirement_goal` is the age-guard error dict, one
of the two error dicts that carry `required_corpus`, or the full success
dict; the monetary fields are `round2` values and the echoed percentage
inputs are verbatim. -/
theorem plan_cases (ca ra : ℤ) (met infl er cc : ℚ) :
    plan_retirement_goal ca ra met infl er cc
      = [("error", .str "Retirement age must be greater than current age.")] ∨
    (∃ msg a, (msg = "Invalid inputs for SIP calculation." ∨
               msg = "Mathematical error in SIP calculation.") ∧
       plan_retirement_goal ca ra met infl er cc
         = [("error", .str msg), ("required_corpus", .num (round2 a))]) ∨
    (∃ a b c, plan_retirement_goal ca ra met infl er cc
      = [("current_age", .int ca),
         ("retirement_age", .int ra),
         ("years_to_retirement", .int (ra - ca)),
         ("monthly_expense_today", .num (round2 met)),
         ("inflation_pct", .num infl),
         ("expected_return_pct_during_accumulation", .num er),
         ("current_corpus", .num (round2 cc)),
         ("target_monthly_at_retirement", .num (round2 a)),
         ("required_corpus", .num (round2 b)),
         ("required_monthly_sip", .num (round2 c))]) := by
  simp only [plan_retirement_goal]
  split_ifs with h1 h2 h3
  · exact Or.inl rfl
  · exact Or.inr (Or.inl ⟨_, _, Or.inl rfl, rfl⟩)
  · exact Or.inr (Or.inl ⟨_, _, Or.inr rfl, rfl⟩)
  · exact Or.inr (Or.inr ⟨_, _, _, rfl⟩)

/-! ## Claim C4: success/error exclusivity of calculator results

The invariant holds for `calculate_sip_projection`, but not as stated for
`plan_retirement_goal`: its two SIP-stage error dicts carry the derived
field `required_corpus` next to `error`. -/

/-- C4 counterexample: `plan_retirement_goal(30, 60, 50000, 6, 0)` returns a
dict with an `error` field and the derived field `required_corpus`. -/
theorem result_exclusivity_counterexample :
    getField (plan_retirement_goal 30 60 50000 6 0 0) "error"
        = some (.str "Invalid inputs for SIP calculation.") ∧
    getField (plan_retirement_goal 30 60 50000 6 0 0) "required_corpus"
        = some (.num (8615236759/100)) := by
  have h : plan_retirement_goal 30 60 50000 6 0 0
      = [("error", .str "Invalid inputs for SIP calculation."),
         ("required_corpus", .num (8615236759/100))] := by
    simp [plan_retirement_goal, round2, bankRound]
    norm_num
  rw [h]
  constructor
  · simp [getField]
  · simp [getField]

/-- C4 (amended): a result of `calculate_sip_projection` is fully successful
or exactly the one-field error dict; a result of `plan_retirement_goal` is
fully successful, or carries exactly one `error` field and no derived field
other than, in the two SIP-stage errors, the already-computed
`required_corpus`. -/
theorem calculator_result_shapes (mi arp : ℚ) (years : ℤ) (ca ra : ℤ)
    (met infl er cc : ℚ) :
    (calculate_sip_projection mi arp years
        = [("error", .str "Years must be > 0")] ∨
     ∃ ti pv g, calculate_sip_projection mi arp years
        = [("monthly_investment", .num mi),
           ("expected_annual_return_pct", .num arp),
           ("years", .int years),
           ("total_invested", .num ti),
           ("projected_value", .num pv),
           ("projected_gain", .num g)]) ∧
    (plan_retirement_goal ca ra met infl er cc
        = [("error", .str "Retirement age must be greater than current age.")] ∨
     (∃ msg rc, (msg = "Invalid inputs for SIP calculation." ∨
                 msg = "Mathematical error in SIP calculation.") ∧
        plan_retirement_goal ca ra met infl er cc
          = [("error", .str msg), ("required_corpus", .num rc)]) ∨
     ∃ tgt rc sip, plan_retirement_goal ca ra met infl er cc
        = [("current_age", .int ca),
           ("retirement_age", .int ra),
           ("years_to_retirement", .int (ra - ca)),
           ("monthly_expense_today", .num (round2 met)),
           ("inflation_pct", .num infl),
           ("expected_return_pct_during_accumulation", .num er),
           ("current_corpus", .num (round2 cc)),
           ("target_monthly_at_retirement", .num tgt),
           ("required_corpus", .num rc),
           ("required_monthly_sip", .num sip)]) := by
  constructor
  · rcases sip_cases mi arp years with h | ⟨a, b, c, h⟩
    · exact Or.inl h
    · exact Or.inr ⟨_, _, _, h⟩
  · rcases plan_cases ca ra met infl er cc with h | ⟨msg, a, hmsg, h⟩ | ⟨a, b, c, h⟩
    · exact Or.inl h
    · exact Or.inr (Or.inl ⟨msg, _, hmsg, h⟩)
    · exact Or.inr (Or.inr ⟨_, _, _, h⟩)

/-! ## Claim C5: which output fields are rounded

The derived monetary fields are rounded to two decimals, and so are the
echoed `monthly_expense_today` and `current_corpus`; but the echoed inputs
`monthly_investment`, `expected_annual_return_pct`, `inflation_pct` and
`expected_return_pct_during_accumulation` are returned verbatim. -/

/-- C5 counterexample: `calculate_sip_projection(1000.001, 12, 1)` echoes
`monthly_investment = 1000.001`, which is not a two-decimal value. -/
theorem rounding_counterexample :
    getField (calculate_sip_projection (1000 + 1/1000) 12 1) "monthly_investment"
        = some (.num (1000 + 1/1000)) ∧
    round2 (1000 + 1/1000) ≠ 1000 + 1/1000 := by
  constructor
  · simp [calculate_sip_projection, getField]
  · simp [round2, bankRound]
    norm_num

/-- C5 (amended): in every result of the two calculators the derived
monetary fields (`total_invested`, `projected_value`, `projected_gain`,
`target_monthly_at_retirement`, `required_corpus`, `required_monthly_sip`)
and the echoed `monthly_expense_today` and `current_corpus` are two-decimal
values, while the echoed `monthly_investment`,
`expected_annual_return_pct`, `inflation_pct` and
`expected_return_pct_during_accumulation` are returned unrounded;
intermediate computation uses unrounded values. -/
theorem rounding_discipline (mi arp : ℚ) (years : ℤ) (ca ra : ℤ)
    (met infl er cc : ℚ) :
    (∀ v, getField (calculate_sip_projection mi arp years) "total_invested"
        = some (.num v) → IsTwoDecimal v) ∧
    (∀ v, getField (calculate_sip_projection mi arp years) "projected_value"
        = some (.num v) → IsTwoDecimal v) ∧
    (∀ v, getField (calculate_sip_projection mi arp years) "projected_gain"
        = some (.num v) → IsTwoDecimal v) ∧
    (∀ v, getField (calculate_sip_projection mi arp years) "monthly_investment"
        = some (.num v) → v = mi) ∧
    (∀ v, getField (calculate_sip_projection mi arp years) "expected_annual_return_pct"
        = some (.num v) → v = arp) ∧
    (∀ v, getField (plan_retirement_goal ca ra met infl er cc) "monthly_expense_today"
        = some (.num v) → IsTwoDecimal v ∧ v = round2 met) ∧
    (∀ v, getField (plan_retirement_goal ca ra met infl er cc) "current_corpus"
        = some (.num v) → IsTwoDecimal v ∧ v = round2 cc) ∧
    (∀ v, getField (plan_retirement_goal ca ra met infl er cc) "target_monthly_at_retirement"
        = some (.num v) → IsTwoDecimal v) ∧
    (∀ v, getField (plan_retirement_goal ca ra met infl er cc) "required_corpus"
        = some (.num v) → IsTwoDecimal v) ∧
    (∀ v, getField (plan_retirement_goal ca ra met infl er cc) "required_monthly_sip"
        = some (.num v) → IsTwoDecimal v) ∧
    (∀ v, getField (plan_retirement_goal ca ra met infl er cc) "inflation_pct"
        = some (.num v) → v = infl) ∧
    (∀ v, getField (plan_retirement_goal ca ra met infl er cc) "expected_return_pct_during_accumulation"
        = some (.num v) → v = er) := by
  have hsip := sip_cases mi arp years
  have hplan := plan_cases ca ra met infl er cc
  rcases hsip with h | ⟨a, b, c, h⟩ <;>
    rcases hplan with h2 | ⟨msg, d, hmsg, h2⟩ | ⟨d, e, f, h2⟩ <;>
    rw [h, h2] <;>
    refine ⟨?_, ?_, ?_, ?_, ?_, ?_, ?_, ?_, ?_, ?_, ?_, ?_⟩ <;>
    intro v hv <;>
    simp [getField] at hv <;>
    try subst hv
  all_goals first
    | exact round2_two_decimal _
    | exact ⟨round2_two_decimal _, rfl⟩
    | rfl

theorem rounding_discipline_witness : IsTwoDecimal (120000 : ℚ) := by
  have h : getField (calculate_sip_projection 1000 12 10) "total_invested"
      = some (.num 120000) := by
    simp [calculate_sip_projection, getField, round2, bankRound]
    norm_num
  exact (rounding_discipline 1000 12 10 30 60 50000 6 12 0).1 120000 h

/-! ## Claim C7: the required monthly SIP is never negative -/

/-- C7: whenever `plan_retirement_goal` returns a success result, the goal
amount fed into the reverse-annuity formula is `max(required_corpus -
current_corpus, 0)`, so `required_monthly_sip` is never negative, and it is
`0` as soon as the current corpus covers the required corpus. -/
theorem required_monthly_sip_nonneg (ca ra : ℤ) (met infl er cc : ℚ)
    (hsucc : getField (plan_retirement_goal ca ra met infl er cc) "error" = none) :
    ∃ v, getField (plan_retirement_goal ca ra met infl er cc) "required_monthly_sip"
        = some (.num v) ∧ 0 ≤ v ∧
      (met * (1 + infl / 100) ^ (ra - ca).toNat * 12 / (4/100) ≤ cc → v = 0) := by
  simp only [plan_retirement_goal] at hsucc ⊢
  split_ifs at hsucc ⊢ with h1 h2 h3
  · simp [getField] at hsucc
  · simp [getField] at hsucc
  · simp [getField] at hsucc
  · push_neg at h2
    have hr : 0 < er / 100 / 12 := h2.2
    have hn : 0 < (ra - ca) * 12 := h2.1
    have hnz : ((ra - ca) * 12).toNat ≠ 0 := by omega
    have hpow : (1 : ℚ) ≤ (1 + er / 100 / 12) ^ ((ra - ca) * 12).toNat :=
      one_le_pow₀ (by linarith)
    have hdenom : 0 < (1 + er / 100 / 12) ^ ((ra - ca) * 12).toNat - 1 :=
      lt_of_le_of_ne (by linarith) (fun h => h3 h.symm)
    refine ⟨round2 ((max (met * (1 + infl / 100) ^ (ra - ca).toNat * 12 / (4/100) - cc) 0)
        * (er / 100 / 12) / ((1 + er / 100 / 12) ^ ((ra - ca) * 12).toNat - 1)),
      ?_, ?_, ?_⟩
    · simp [getField]
    · exact round2_nonneg (div_nonneg
        (mul_nonneg (le_max_right _ _) hr.le) hdenom.le)
    · intro hcc
      have hmax : max (met * (1 + infl / 100) ^ (ra - ca).toNat * 12 / (4/100) - cc) 0
          = 0 := max_eq_right (by linarith)
      rw [hmax]
      simpa using round2_zero

theorem required_monthly_sip_nonneg_witness :
    getField (plan_retirement_goal 30 31 100 0 12 40000) "error" = none ∧
    ∃ v, getField (plan_retirement_goal 30 31 100 0 12 40000) "required_monthly_sip"
        = some (.num v) ∧ 0 ≤ v ∧
      (100 * (1 + (0:ℚ) / 100) ^ ((31:ℤ) - 30).toNat * 12 / (4/100) ≤ 40000 → v = 0) := by
  have hs : getField (plan_retirement_goal 30 31 100 0 12 40000) "error" = none := by
    simp [plan_retirement_goal, getField]
    norm_num [getField]
    simp
  exact ⟨hs, required_monthly_sip_nonneg 30 31 100 0 12 40000 hs⟩

/-! ## Claim C8: the projected gain is never negative -/

/-- C8: for `monthly_investment >= 0`, `expected_annual_return_pct >= 0` and
`years >= 1`, the rounded `projected_value` is at least the rounded
`total_invested`. -/
theorem sip_gain_nonneg (mi arp : ℚ) (years : ℤ)
    (hmi : 0 ≤ mi) (harp : 0 ≤ arp) (hy : 1 ≤ years) :
    ∃ ti pv, getField (calculate_sip_projection mi arp years) "total_invested"
        = some (.num ti) ∧
      getField (calculate_sip_projection mi arp years) "projected_value"
        = some (.num pv) ∧
      ti ≤ pv := by
  have hy0 : ¬(years ≤ 0) := by omega
  simp only [calculate_sip_projection, if_neg hy0]
  by_cases hr : (arp / 100) / 12 = 0
  · rw [if_pos hr]
    refine ⟨round2 (mi * ((years * 12 : ℤ) : ℚ)),
      round2 (mi * ((years * 12 : ℤ) : ℚ)), ?_, ?_, le_refl _⟩
    · simp [getField]
    · simp [getField]
  · rw [if_neg hr]
    refine ⟨round2 (mi * ((years * 12 : ℤ) : ℚ)),
      round2 (mi * (((1 + arp / 100 / 12) ^ (years * 12 : ℤ).toNat - 1)
        / (arp / 100 / 12))),
      by simp [getField], by simp [getField], ?_⟩
    apply round2_mono
    have hr0 : 0 < arp / 100 / 12 := lt_of_le_of_ne (by positivity) (Ne.symm hr)
    have hnn : (0 : ℤ) ≤ years * 12 := by omega
    have hcast : (((years * 12 : ℤ).toNat : ℚ)) = ((years * 12 : ℤ) : ℚ) := by
      exact_mod_cast congrArg (Int.cast : ℤ → ℚ) (Int.toNat_of_nonneg hnn)
    have hbern := one_add_mul_le_pow
      (by linarith : (-2 : ℚ) ≤ arp / 100 / 12) (years * 12 : ℤ).toNat
    have hdiv : (((years * 12 : ℤ).toNat : ℚ))
        ≤ ((1 + arp / 100 / 12) ^ (years * 12 : ℤ).toNat - 1) / (arp / 100 / 12) := by
      rw [le_div_iff₀ hr0]
      linarith
    calc mi * ((years * 12 : ℤ) : ℚ)
        = mi * (((years * 12 : ℤ).toNat : ℚ)) := by rw [hcast]
      _ ≤ mi * (((1 + arp / 100 / 12) ^ (years * 12 : ℤ).toNat - 1)
            / (arp / 100 / 12)) := by
          exact mul_le_mul_of_nonneg_left hdiv hmi

theorem sip_gain_nonneg_witness :
    (0 : ℚ) ≤ 1000 ∧ (0 : ℚ) ≤ 12 ∧ (1 : ℤ) ≤ 10 ∧
    ∃ ti pv, getField (calculate_sip_projection 1000 12 10) "total_invested"
        = some (.num ti) ∧
      getField (calculate_sip_projection 1000 12 10) "projected_value"
        = some (.num pv) ∧
      ti ≤ pv :=
  ⟨by norm_num, by norm_num, by decide,
   sip_gain_nonneg 1000 12 10 (by norm_num) (by norm_num) (by decide)⟩

/-! ## Claim C10: the mathematical-error branch is unreachable -/

/-- C10: under `retirement_age > current_age` the month count
`n = years_to_retirement * 12` is strictly positive, for every positive
monthly rate the annuity denominator `(1+r)^n - 1` is strictly positive in
exact arithmetic, and `plan_retirement_goal` never returns the
`"Mathematical error in SIP calculation."` error. -/
theorem plan_math_error_unreachable (ca ra : ℤ) (met infl er cc : ℚ)
    (hage : ca < ra) :
    0 < (ra - ca) * 12 ∧
    (0 < er / 100 / 12 →
      0 < (1 + er / 100 / 12) ^ ((ra - ca) * 12).toNat - 1) ∧
    getField (plan_retirement_goal ca ra met infl er cc) "error"
      ≠ some (.str "Mathematical error in SIP calculation.") := by
  have hn : 0 < (ra - ca) * 12 := by omega
  have hdenom : ∀ r : ℚ, 0 < r → 0 < (1 + r) ^ ((ra - ca) * 12).toNat - 1 := by
    intro r hr
    have hnz : ((ra - ca) * 12).toNat ≠ 0 := by omega
    have := one_lt_pow₀ (by linarith : (1 : ℚ) < 1 + r) hnz
    linarith
  refine ⟨hn, hdenom _, ?_⟩
  simp only [plan_retirement_goal]
  split_ifs with h1 h2 h3
  · exact absurd h1 (by omega)
  · simp [getField]
  · push_neg at h2
    exact absurd h3 (by have := hdenom _ h2.2; linarith)
  · simp [getField]

theorem plan_math_error_unreachable_witness :
    (30 : ℤ) < 60 ∧
    (0 < (60 - 30 : ℤ) * 12 ∧
     (0 < (12 : ℚ) / 100 / 12 →
       0 < (1 + (12 : ℚ) / 100 / 12) ^ (((60 : ℤ) - 30) * 12).toNat - 1) ∧
     getField (plan_retirement_goal 30 60 50000 6 12 0) "error"
       ≠ some (.str "Mathematical error in SIP calculation.")) :=
  ⟨by decide, plan_math_error_unreachable 30 60 50000 6 12 0 (by decide)⟩

/-! ## Claim C1: the dispatcher returns one result per request, in order -/

/-- C1: for every `TurnResponse`, `invoke_tools_from_response` returns
exactly one `function_call_output` per `function_call` item, in the order
the requests appear, each echoing its request's call identifier; no result
is omitted and, the embedding being a total function covering unknown
tools, malformed payloads and signature mismatches, no exception escapes. -/
theorem invoke_tools_from_response_dispatch (response : TurnResponse) :
    (invoke_tools_from_response response).map ToolCallResult.call_id
        = response.output.filterMap requestCallId ∧
    (invoke_tools_from_response response).length
        = (response.output.filter isFunctionCall).length := by
  rcases response with ⟨rid, out⟩
  simp only [invoke_tools_from_response]
  induction out with
  | nil => simp
  | cons item rest ih =>
    obtain ⟨ih1, ih2⟩ := ih
    cases item with
    | function_call cid nm args =>
        simp only [List.filterMap_cons, List.filter_cons, requestCallId,
          isFunctionCall, List.map_cons, List.length_cons]
        exact ⟨by simp [ih1], by simp [ih2]⟩
    | other t =>
        simp only [List.filterMap_cons, List.filter_cons, requestCallId,
          isFunctionCall]
        exact ⟨ih1, by simpa using ih2⟩

/-! ## Claim C2: round-trip count, continuation ids and the fixed catalog -/

theorem agent_loop_final {response : TurnResponse} (backend : List TurnResponse)
    (h : invoke_tools_from_response response = []) :
    agent_loop response backend = some (response, []) := by
  unfold agent_loop
  rw [if_pos h]

theorem agent_loop_step {response : TurnResponse} (next : TurnResponse)
    (rest : List TurnResponse)
    (h : ¬(invoke_tools_from_response response = [])) :
    agent_loop response (next :: rest)
      = (agent_loop next rest).map fun p =>
          (p.1,
           { model := MODEL,
             input := .toolOutputs (invoke_tools_from_response response),
             tools := TOOLS,
             previous_response_id := some response.id } :: p.2) := by
  conv_lhs => unfold agent_loop
  rw [if_neg h]

/-- The loop, run against a backend that answers `middles ++ [fin]` where
every response of `middles` still requests tools and `fin` does not: it
consumes the whole stream and issues one resubmission per consumed
tool-requesting response, carrying that response's id and the catalog. -/
theorem agent_loop_run (middles : List TurnResponse) :
    ∀ first fin : TurnResponse,
      invoke_tools_from_response fin = [] →
      invoke_tools_from_response first ≠ [] →
      (∀ r ∈ middles, invoke_tools_from_response r ≠ []) →
      agent_loop first (middles ++ [fin])
        = some (fin, (first :: middles).map fun r =>
            { model := MODEL,
              input := .toolOutputs (invoke_tools_from_response r),
              tools := TOOLS,
              previous_response_id := some r.id }) := by
  induction middles with
  | nil =>
      intro first fin hfin hfirst _
      rw [List.nil_append, agent_loop_step fin [] hfirst,
        agent_loop_final [] hfin]
      simp
  | cons m ms ih =>
      intro first fin hfin hfirst hmid
      rw [List.cons_append, agent_loop_step m (ms ++ [fin]) hfirst,
        ih m fin hfin (hmid m (by simp)) (fun r hr => hmid r (by simp [hr]))]
      simp

/-- C2: against a backend whose consecutive responses to this turn are
`middles ++ [fin]`, with every response in `middles` containing at least one
tool request (`m` of them) and `fin` containing none, `run_agent_turn`
issues exactly `m + 1` backend requests: the initial one with the user's
message, then one resubmission per tool-requesting response whose
continuation identifier is that latest response's id; every request carries
the unchanged catalog `TOOLS` (and the model `MODEL`).  With `middles = []`
this is the single-round-trip case. -/
theorem run_agent_turn_round_trips (user_input : String)
    (previous_response_id : Option String)
    (middles : List TurnResponse) (fin : TurnResponse)
    (hmid : ∀ r ∈ middles, invoke_tools_from_response r ≠ [])
    (hfin : invoke_tools_from_response fin = []) :
    ∃ reqs : List BackendRequest,
      run_agent_turn user_input previous_response_id (middles ++ [fin])
        = some (fin, reqs) ∧
      reqs = { model := MODEL, input := .user user_input, tools := TOOLS,
               previous_response_id := previous_response_id }
          :: middles.map (fun r =>
               { model := MODEL,
                 input := .toolOutputs (invoke_tools_from_response r),
                 tools := TOOLS,
                 previous_response_id := some r.id }) ∧
      reqs.length = middles.length + 1 ∧
      ∀ req ∈ reqs, req.tools = TOOLS ∧ req.model = MODEL := by
  refine ⟨_, ?_, rfl, by simp, ?_⟩
  · cases middles with
    | nil =>
        simp only [List.nil_append, run_agent_turn]
        rw [agent_loop_final [] hfin]
        simp
    | cons m ms =>
        simp only [List.cons_append, run_agent_turn]
        rw [agent_loop_run ms m fin hfin (hmid m (by simp))
          (fun r hr => hmid r (by simp [hr]))]
        simp
  · intro req hreq
    simp only [List.mem_cons, List.mem_map] at hreq
    rcases hreq with rfl | ⟨r, _, rfl⟩
    · exact ⟨rfl, rfl⟩
    · exact ⟨rfl, rfl⟩

theorem run_agent_turn_round_trips_witness :
    (∀ r ∈ [(⟨"resp_1",
        [.other "reasoning",
         .function_call "call_1" "calculate_sip_projection"
           (.parsed (.sipArgs 1000 12 10))]⟩ : TurnResponse)],
      invoke_tools_from_response r ≠ []) ∧
    invoke_tools_from_response ⟨"resp_2", [.other "message"]⟩ = [] ∧
    ∃ reqs : List BackendRequest,
      run_agent_turn "How much will a 1000 SIP grow in 10 years?" none
          ([(⟨"resp_1",
              [.other "reasoning",
               .function_call "call_1" "calculate_sip_projection"
                 (.parsed (.sipArgs 1000 12 10))]⟩ : TurnResponse)]
            ++ [⟨"resp_2", [.other "message"]⟩])
        = some (⟨"resp_2", [.other "message"]⟩, reqs) ∧
      reqs.length = 2 := by
  have h1 : ∀ r ∈ [(⟨"resp_1",
      [.other "reasoning",
       .function_call "call_1" "calculate_sip_projection"
         (.parsed (.sipArgs 1000 12 10))]⟩ : TurnResponse)],
      invoke_tools_from_response r ≠ [] := by
    intro r hr
    simp only [List.mem_singleton] at hr
    subst hr
    simp [invoke_tools_from_response]
  have h2 : invoke_tools_from_response ⟨"resp_2", [.other "message"]⟩ = [] := by
    simp [invoke_tools_from_response]
  obtain ⟨reqs, hrun, _, hlen, _⟩ :=
    run_agent_turn_round_trips "How much will a 1000 SIP grow in 10 years?" none
      [(⟨"resp_1",
          [.other "reasoning",
           .function_call "call_1" "calculate_sip_projection"
             (.parsed (.sipArgs 1000 12 10))]⟩ : TurnResponse)]
      ⟨"resp_2", [.other "message"]⟩ h1 h2
  exact ⟨h1, h2, reqs, hrun, by simpa using hlen⟩
